import Mathlib

/-!
Verification development for the kleinanzeigen listing-detail pipeline.

The definitions below are a shallow embedding of the repository sources:
`src/libs/websites/kleinanzeigen.py` (field extraction helpers),
`src/scrapers/inserat.py` (the retry orchestrator
`get_inserate_details_optimized`), and `src/routers/inserat.py` (the HTTP
endpoint guard).  The support modules `src/utils/error_handling.py` and
`src/utils/performance.py` are imported by the scraper but are not present
in the sources; the pieces of them that the claims depend on are modelled
from the specification and carry a doc comment starting with
`Modelled from the spec:`.
-/

/-! ## Python string primitives

The Python code uses `str.strip`, `str.replace` and the substring test
`sub in s`.  They are embedded as structurally recursive functions on the
underlying character lists so that concrete evaluations reduce in the
kernel. -/

/-- The characters removed by Python `str.strip()` with no argument
(ASCII whitespace; the exotic Unicode whitespace code points never occur
in the strings this development touches). -/
def isPyWhitespace (c : Char) : Bool :=
  c == ' ' || c == '\t' || c == '\n' || c == '\r' || c == '\x0b' || c == '\x0c'

/-- Python `s.strip()`: drop whitespace from both ends. -/
def pyStrip (s : String) : String :=
  ⟨((s.data.dropWhile isPyWhitespace).reverse.dropWhile isPyWhitespace).reverse⟩

/-- Does the list start with the given pattern? -/
def listStartsWith : List Char → List Char → Bool
  | [], _ => true
  | _ :: _, [] => false
  | p :: ps, c :: cs => p == c && listStartsWith ps cs

/-- Left-to-right, non-overlapping replacement of a (non-empty) pattern,
as performed by Python `s.replace(pat, repl)`.  The fuel argument is the
length of the input, which bounds the recursion. -/
def listReplace (pat repl : List Char) : Nat → List Char → List Char
  | 0, s => s
  | _, [] => []
  | fuel + 1, c :: rest =>
    if listStartsWith pat (c :: rest) then
      repl ++ listReplace pat repl fuel ((c :: rest).drop pat.length)
    else
      c :: listReplace pat repl fuel rest

/-- Python `s.replace(pat, repl)` (for the non-empty patterns used in the
source). -/
def pyReplace (s pat repl : String) : String :=
  ⟨listReplace pat.data repl.data s.data.length s.data⟩

/-- Does the second list occur as a contiguous run inside the first? -/
def listHasSub (sub : List Char) : List Char → Bool
  | [] => sub.isEmpty
  | c :: rest => listStartsWith sub (c :: rest) || listHasSub sub rest

/-- Python substring membership `sub in s`. -/
def strContains (s sub : String) : Bool :=
  listHasSub sub.data s.data

/-! ## parse_price (src/libs/websites/kleinanzeigen.py, lines 25-36) -/

/-- The price dictionary returned by `parse_price`. -/
structure Price where
  amount : String
  currency : String
  negotiable : Bool
deriving Repr, DecidableEq

/-- `parse_price(price_text)`: `None` or an empty string yield the default
price; otherwise the text is stripped, the negotiable flag is the substring
test `"VB" in price_text`, the marker `VB` is removed, and the amount is the
text with the currency sign and thousands dots removed and the decimal comma
turned into a dot. -/
def parse_price (priceText : Option String) : Price :=
  match priceText with
  | none => { amount := "0", currency := "€", negotiable := false }
  | some t =>
    if t == "" then
      { amount := "0", currency := "€", negotiable := false }
    else
      let t1 := pyStrip t
      let negotiable := strContains t1 "VB"
      let t2 := pyStrip (pyReplace t1 "VB" "")
      let amount := pyStrip (pyReplace (pyReplace (pyReplace t2 "€" "") "." "") "," ".")
      { amount := amount, currency := "€", negotiable := negotiable }

example : parse_price (some "1.234,56 € VB") =
    { amount := "1234.56", currency := "€", negotiable := true } := by decide

example : parse_price none = { amount := "0", currency := "€", negotiable := false } := by decide

/-! ## Document model

BeautifulSoup documents are abstracted by the results of the two query
operations the source uses: `soup.select_one(selector)` and
`soup.select(selector)`.  Both raise (for example `SelectorSyntaxError` on a
selector the CSS engine rejects, such as the `:has-text(...)` pseudo-class
used in `get_seller_details`), which the embedding represents with
`Except String`.  An element records its stripped text
(`get_text(strip=True)`), its attribute mapping, and, for
`item.find(class_=c)`, the stripped text of the first descendant with class
`c` (`none` when there is no such descendant). -/

structure Element where
  text : String
  attrs : List (String × String)
  classText : String → Option String

/-- `element[name]` / `element.has_attr(name)`: the attribute value when
present. -/
def Element.attr (el : Element) (name : String) : Option String :=
  (el.attrs.find? (fun p => p.1 == name)).map (fun p => p.2)

structure Doc where
  selectOne : String → Except String (Option Element)
  select : String → Except String (List Element)

/-! ## Extraction helpers (src/libs/websites/kleinanzeigen.py) -/

/-- `get_element_content(soup, selector, default=None)`: the stripped text
of the first match, or the default when nothing matches.  A selector error
propagates (there is no handler in this helper). -/
def get_element_content (doc : Doc) (selector : String)
    (default : Option String := none) : Except String (Option String) :=
  match doc.selectOne selector with
  | .error m => .error m
  | .ok (some el) => .ok (some el.text)
  | .ok none => .ok default

/-- `get_elements_content(soup, selector)`: the stripped texts of all
matches. -/
def get_elements_content (doc : Doc) (selector : String) :
    Except String (List String) :=
  match doc.select selector with
  | .error m => .error m
  | .ok els => .ok (els.map (fun el => el.text))

/-- `get_image_sources(soup, selector)` (lines 17-22): looks at the single
`select_one` match and appends its `src` attribute when the element exists
and has that attribute, so the result holds at most one URL. -/
def get_image_sources (doc : Doc) (selector : String) :
    Except String (List String) :=
  match doc.selectOne selector with
  | .error m => .error m
  | .ok none => .ok []
  | .ok (some el) =>
    match el.attr "src" with
    | some src => .ok [src]
    | none => .ok []

/-- The seller dictionary built by `get_seller_details`. -/
structure SellerDetails where
  name : Option String
  since : Option String
  type : String
  badges : List String
deriving Repr, DecidableEq

/-- `get_seller_details(soup)` (lines 39-62): starts from the default
dictionary and runs `_get_seller_details_`, which mutates it field by
field; every exception is caught by the `try/except` in the caller, so the
fields assigned before the failing step survive and the rest keep their
defaults.  The sequential steps are embedded directly, with each
`.error` branch returning the state reached so far. -/
def get_seller_details (doc : Doc) : SellerDetails :=
  let r0 : SellerDetails := { name := none, since := none, type := "private", badges := [] }
  match get_element_content doc ".userprofile-vip" with
  | .error _ => r0
  | .ok name? =>
    let r1 := { r0 with name := name? }
    match doc.selectOne ".userprofile-vip-details-text" with
    | .error _ => r1
    | .ok sellerTypeEl? =>
      let r2 :=
        match sellerTypeEl? with
        | some el =>
          if strContains el.text "Gewerblicher" then { r1 with type := "business" } else r1
        | none => r1
      match get_element_content doc ".userprofile-vip-details-text:has-text(\x27Aktiv seit\x27)" with
      | .error _ => r2
      | .ok since? =>
        let r3 :=
          match since? with
          | some s => { r2 with since := pyStrip (pyReplace s "Aktiv seit " "") }
          | none => r2
        match get_elements_content doc ".userprofile-vip-badges .userbadge-tag" with
        | .error _ => r3
        | .ok badges =>
          { r3 with
            badges := (badges.filter (fun b => !(b == "") && !(pyStrip b == ""))).map pyStrip }

/-- Python dictionary assignment `d[k] = v`: update in place when the key
exists, append otherwise (insertion order preserved). -/
def dictInsert (d : List (String × String)) (k v : String) : List (String × String) :=
  if d.any (fun p => p.1 == k) then
    d.map (fun p => if p.1 == k then (k, v) else p)
  else
    d ++ [(k, v)]

/-- `get_details(soup)` (lines 65-78): selects the detail items and keeps
the label/value pairs where both descendants exist; the surrounding
`try/except` turns a selector error into the dictionary accumulated so far
(the select is the first statement, so that dictionary is empty). -/
def get_details (doc : Doc) : List (String × String) :=
  match doc.select "#viewad-details .addetailslist--detail" with
  | .error _ => []
  | .ok items =>
    items.foldl
      (fun details item =>
        match item.classText "addetailslist--detail--label",
              item.classText "addetailslist--detail--value" with
        | some label, some value => dictInsert details label value
        | _, _ => details)
      []

/-- `get_features(soup)` (lines 81-90): the non-empty stripped texts of the
feature tags; a selector error is caught and yields the list so far. -/
def get_features (doc : Doc) : List String :=
  match doc.select "#viewad-configuration .checktaglist .checktag" with
  | .error _ => []
  | .ok els =>
    els.foldl (fun fs el => if el.text == "" then fs else fs ++ [el.text]) []

/-! ## Error classification and warnings

`src/utils/error_handling.py` is imported by the scraper but is not among
the sources; the definitions in this section are modelled from the
specification (sections 3, 4.2 and 4.3). -/

/-- Modelled from the spec: the severity enumeration of
`utils.error_handling.ErrorSeverity` (section 3). -/
inductive ErrorSeverity where
  | low
  | medium
  | high
deriving Repr, DecidableEq

/-- Modelled from the spec: the `.value` string of the severity enum. -/
def ErrorSeverity.value : ErrorSeverity → String
  | .low => "low"
  | .medium => "medium"
  | .high => "high"

/-- Modelled from the spec: the error-category enumeration (section 3). -/
inductive ErrorCategory where
  | httpStatus
  | timeout
  | network
  | parsing
  | unknown
deriving Repr, DecidableEq

/-- Modelled from the spec: the `.value` string of the category enum. -/
def ErrorCategory.value : ErrorCategory → String
  | .httpStatus => "http_status"
  | .timeout => "timeout"
  | .network => "network"
  | .parsing => "parsing"
  | .unknown => "unknown"

/-- The raw failures an attempt can raise: an HTTP status error carrying
the status code, a timeout, a lower-level network failure, a failure inside
document parsing, or anything else. -/
inductive RawError where
  | httpStatusError (status : Nat)
  | timeoutError
  | networkError
  | parsingError
  | otherError (msg : String)
deriving Repr, DecidableEq

/-- Modelled from the spec: `utils.error_handling` StructuredError -
category, severity, message, recovery suggestions, and the retryability
decided by the classification rules (section 4.2). -/
structure StructuredError where
  category : ErrorCategory
  severity : ErrorSeverity
  message : String
  recoverySuggestions : List String
  retryRecommended : Bool
deriving Repr, DecidableEq

/-- Modelled from the spec: `structured_error.should_retry(max_retries)`.
Retryability is decided by the category rules of section 4.2; the
attempt-index guard appears explicitly in the orchestrator as
`attempt < retry_count`. -/
def StructuredError.shouldRetry (se : StructuredError) (_maxRetries : Nat) : Bool :=
  se.retryRecommended

/-- Modelled from the spec: `error_ctx.handle_exception`, the error
classifier of section 4.2.  Rules in priority order: HTTP status >= 400
(4xx medium, 5xx high; retryable only for 5xx and 429), timeout (medium,
retryable), network (medium, retryable), parsing (high, not retryable),
anything else (high, not retryable).  Only the TIMEOUT recovery list is
given verbatim in the spec; the other lists are fixed per-category
strings. -/
def classify_error (e : RawError) : StructuredError :=
  match e with
  | .httpStatusError status =>
    { category := .httpStatus
      severity := if 500 ≤ status then .high else .medium
      message := "HTTP status error " ++ toString status
      recoverySuggestions := ["check the requested URL", "retry later if the status is transient"]
      retryRecommended := 500 ≤ status || status == 429 }
  | .timeoutError =>
    { category := .timeout
      severity := .medium
      message := "request timed out"
      recoverySuggestions := ["increase timeout", "check target server load"]
      retryRecommended := true }
  | .networkError =>
    { category := .network
      severity := .medium
      message := "network failure"
      recoverySuggestions := ["check network connectivity", "retry after a short delay"]
      retryRecommended := true }
  | .parsingError =>
    { category := .parsing
      severity := .high
      message := "failed to parse document"
      recoverySuggestions := ["report the malformed page layout"]
      retryRecommended := false }
  | .otherError msg =>
    { category := .unknown
      severity := .high
      message := msg
      recoverySuggestions := ["inspect the logs"]
      retryRecommended := false }

/-- Modelled from the spec: a warning record of
`utils.error_handling.WarningManager` (section 3); the `ErrorContext`
argument is represented by its operation label. -/
structure Warning where
  message : String
  severity : ErrorSeverity
  context : String
  affectedItems : List String
  impactDescription : String
deriving Repr, DecidableEq

/-- Modelled from the spec: `get_warning_summary()` counts grouped by
severity (section 4.3). -/
structure WarningSummary where
  low : Nat
  medium : Nat
  high : Nat
deriving Repr, DecidableEq

/-- Modelled from the spec: the summary computed over the accumulated
warning sequence. -/
def summarizeWarnings (ws : List Warning) : WarningSummary :=
  { low := (ws.filter (fun w => w.severity == .low)).length
    medium := (ws.filter (fun w => w.severity == .medium)).length
    high := (ws.filter (fun w => w.severity == .high)).length }

/-! ## Performance tracking

`src/utils/performance.py` is also absent from the sources; the tracker is
modelled from the specification (sections 3 and 4.4). -/

/-- The `PageMetrics` record built at the two call sites in the scraper.
The wall-clock `start_time`/`end_time` fields are environment inputs with
no bearing on any claim and are not modelled. -/
structure PageMetrics where
  pageNumber : Nat
  url : String
  success : Bool
  retryCount : Nat
  errorMessage : Option String
  resultsCount : Nat
  errorCategory : Option String
  warningCount : Nat
deriving Repr, DecidableEq

/-- Modelled from the spec: the request-level aggregation of section 3.
The elapsed-time fields are environment inputs and are not modelled. -/
structure RequestMetrics where
  totalAttempts : Nat
  successfulAttempts : Nat
  totalWarnings : Nat
deriving Repr, DecidableEq

/-- Modelled from the spec: success rate on the 0-100 scale, reporting 100
when no attempt has completed (section 4.4). -/
def RequestMetrics.successRate (m : RequestMetrics) : ℚ :=
  if m.totalAttempts = 0 then 100 else 100 * m.successfulAttempts / m.totalAttempts

/-- Modelled from the spec: `tracker.get_request_metrics()` recomputed from
the recorded per-attempt metrics; the per-attempt warning counts recorded
by the scraper are cumulative, so the total is the last recorded count. -/
def get_request_metrics (tracker : List PageMetrics) : RequestMetrics :=
  { totalAttempts := tracker.length
    successfulAttempts := (tracker.filter (fun m => m.success)).length
    totalWarnings := (tracker.getLast?.map (fun m => m.warningCount)).getD 0 }

/-! ## The retry orchestrator (src/scrapers/inserat.py, lines 78-203) -/

/-- The record returned by `get_inserate_details_httpx`.  The orchestrator
inspects only the truthiness of the record and of `details.get("id")`; the
other key/value pairs are carried through unchanged as `rest`.  `id = none`
stands for a missing key and `id = some ""` for an empty identifier. -/
structure Details where
  id : Option String
  rest : List (String × String)
deriving Repr, DecidableEq

/-- Python truthiness of the `details` dictionary: a dictionary is falsy
exactly when it is empty. -/
def detailsFalsy (d : Details) : Bool :=
  d.id.isNone && d.rest.isEmpty

/-- Python truthiness of `details.get("id")`: falsy when the key is absent
or the value is an empty string. -/
def detailsIdFalsy (d : Details) : Bool :=
  match d.id with
  | none => true
  | some s => s == ""

/-- The outcome of one `get_inserate_details_httpx` call: a details record,
or a raised failure. -/
inductive AttemptOutcome where
  | success (details : Details)
  | failure (e : RawError)

/-- A Python exception escaping `get_inserate_details_optimized`
uncaught. -/
inductive PyExn where
  | attributeError (msg : String)
  | httpException (status : Nat) (detail : String)
deriving Repr, DecidableEq

/-- The final response dictionary built by the orchestrator.  `Option`
fields model dictionary keys that are present on some paths only; the
failure branch omits `warning_summary` (lines 185-189 add only `warnings`
and `detailed_warnings`).  `time_taken` is an environment input and is not
modelled. -/
structure Response where
  success : Bool
  data : Option Details
  error : Option String
  errorCategory : Option String
  errorSeverity : Option String
  recoverySuggestions : Option (List String)
  performanceMetrics : RequestMetrics
  warnings : Option (List String)
  detailedWarnings : Option (List Warning)
  warningSummary : Option WarningSummary
deriving Repr, DecidableEq

/-- What one call of the orchestrator does: return a response dictionary,
or let a raised exception escape. -/
inductive RunResult where
  | response (r : Response)
  | raised (e : PyExn)
deriving Repr, DecidableEq

/-- The target URL built at line 88. -/
def listing_url (listingId : String) : String :=
  "https://www.kleinanzeigen.de/s-anzeige/" ++ listingId

/-- The warning added at lines 102-108 when the extracted record or its
identifier is falsy. -/
def incompleteDataWarning (listingId : String) : Warning :=
  { message := "Incomplete data extracted for listing " ++ listingId
    severity := .medium
    context := "fetch_listing_details_httpx"
    affectedItems := [listingId]
    impactDescription := "Some listing information may be missing" }

/-- The warning added at lines 146-152 before a retry. -/
def retryWarning (listingId : String) (se : StructuredError)
    (attempt retryCount : Nat) : Warning :=
  { message := "Retrying listing " ++ listingId ++ " after " ++ se.category.value
      ++ " error (attempt " ++ toString (attempt + 1) ++ "/" ++ toString (retryCount + 1) ++ ")"
    severity := .medium
    context := "fetch_listing_details_httpx"
    affectedItems := [listingId]
    impactDescription := "Temporary delay before retry due to " ++ se.category.value ++ " error" }

/-- The metric recorded at lines 110-121 for a successful attempt. -/
def successPageMetric (url : String) (attempt warningCount : Nat) : PageMetrics :=
  { pageNumber := 1
    url := url
    success := true
    retryCount := attempt
    errorMessage := none
    resultsCount := 1
    errorCategory := none
    warningCount := warningCount }

/-- The terminal error message built at line 157. -/
def failedAfterMsg (attempt : Nat) (se : StructuredError) : String :=
  "Failed after " ++ toString (attempt + 1) ++ " attempts: " ++ se.message

/-- The metric recorded at lines 158-170 for the terminal failed
attempt. -/
def failurePageMetric (url : String) (attempt : Nat) (se : StructuredError)
    (warningCount : Nat) : PageMetrics :=
  { pageNumber := 1
    url := url
    success := false
    retryCount := attempt
    errorMessage := some (failedAfterMsg attempt se)
    resultsCount := 0
    errorCategory := some se.category.value
    warningCount := warningCount }

/-- The success dictionary built at lines 125-136: the warning keys are
present exactly when the accumulated warning list is non-empty, and the
success branch also attaches the warning summary. -/
def successResponse (details : Details) (tracker : List PageMetrics)
    (wm : List Warning) : Response :=
  { success := true
    data := some details
    error := none
    errorCategory := none
    errorSeverity := none
    recoverySuggestions := none
    performanceMetrics := get_request_metrics tracker
    warnings := if wm.isEmpty then none else some (wm.map (fun w => w.message))
    detailedWarnings := if wm.isEmpty then none else some wm
    warningSummary := if wm.isEmpty then none else some (summarizeWarnings wm) }

/-- The failure dictionary built at lines 174-189: error fields from the
last StructuredError; `warnings` and `detailed_warnings` are present
exactly when the accumulated warning list is non-empty, and no warning
summary is attached on this branch. -/
def failureResponse (se : StructuredError) (attempt : Nat)
    (tracker : List PageMetrics) (wm : List Warning) : Response :=
  { success := false
    data := none
    error := some (failedAfterMsg attempt se)
    errorCategory := some se.category.value
    errorSeverity := some se.severity.value
    recoverySuggestions := some se.recoverySuggestions
    performanceMetrics := get_request_metrics tracker
    warnings := if wm.isEmpty then none else some (wm.map (fun w => w.message))
    detailedWarnings := if wm.isEmpty then none else some wm
    warningSummary := none }

/-- Line 153 of src/scrapers/inserat.py:
`wait_time = (2**attempt) + asyncio.trandom.uniform(0, 1)`.
The `asyncio` module has no attribute `trandom`, so evaluating the
expression raises `AttributeError` before any wait value is produced. -/
def backoffWaitTime (_attempt : Nat) : Except PyExn ℚ :=
  .error (.attributeError "module asyncio has no attribute trandom")

/-- The loop `for attempt in range(retry_count + 1)` (lines 96-190),
embedded as recursion on the number of remaining loop iterations (the
caller passes `retry_count + 1`).  Each iteration consults the attempt
oracle standing for `get_inserate_details_httpx`; on success it records a
metric and returns the success dictionary; on failure it classifies the
exception and, when a retry is due, adds the retry warning and evaluates
the backoff expression - whose `AttributeError` escapes uncaught - before
it could sleep and continue; otherwise it records the terminal metric and
returns the failure dictionary.  When the range is exhausted, lines
192-203 raise an `HTTPException` built from the last structured error. -/
def retryFrom (listingId url : String) (oracle : Nat → AttemptOutcome)
    (retryCount : Nat) :
    Nat → Nat → List Warning → List PageMetrics → Option StructuredError → RunResult
  | _attempt, 0, _wm, _tracker, lastErr =>
    match lastErr with
    | some se => .raised (.httpException 500 se.message)
    | none => .raised (.httpException 500 "Unexpected error in retry loop")
  | attempt, remaining + 1, wm, tracker, _lastErr =>
    match oracle attempt with
    | .success details =>
      let wm1 :=
        if detailsFalsy details || detailsIdFalsy details then
          wm ++ [incompleteDataWarning listingId]
        else
          wm
      let tracker1 := tracker ++ [successPageMetric url attempt wm1.length]
      .response (successResponse details tracker1 wm1)
    | .failure e =>
      let se := classify_error e
      if decide (attempt < retryCount) && se.shouldRetry retryCount then
        let wm1 := wm ++ [retryWarning listingId se attempt retryCount]
        match backoffWaitTime attempt with
        | .error exn => .raised exn
        | .ok _wait =>
          retryFrom listingId url oracle retryCount (attempt + 1) remaining wm1 tracker (some se)
      else
        let tracker1 := tracker ++ [failurePageMetric url attempt se wm.length]
        .response (failureResponse se attempt tracker1 wm)

/-- `get_inserate_details_optimized(listing_id, retry_count=2)`
(lines 78-203): fresh warning manager and tracker, then the attempt loop
starting at attempt 0 with `retry_count + 1` iterations available.  The
per-attempt fetch-and-extract call is abstracted by the oracle. -/
def get_inserate_details_optimized (oracle : Nat → AttemptOutcome)
    (listingId : String) (retryCount : Nat := 2) : RunResult :=
  retryFrom listingId (listing_url listingId) oracle retryCount 0 (retryCount + 1) [] [] none

/-! ## The HTTP endpoint (src/routers/inserat.py, lines 8-51) -/

/-- The trimmed response assembled by the endpoint: success flag, data, and
the minimal performance block (`time_taken` is an environment input and is
not modelled). -/
structure CleanResponse where
  success : Bool
  data : Option Details
  performanceSuccessRate : ℚ
deriving Repr, DecidableEq

/-- What one call of the endpoint produces: an `HTTPException` with a
status code and detail, or the cleaned response. -/
inductive RouterOutcome where
  | httpError (status : Nat) (detail : String)
  | ok (resp : CleanResponse)
deriving Repr, DecidableEq

/-- `get_inserat(request, id)`: the guard
`if not id or not id.strip(): raise HTTPException(400, "Invalid listing ID")`
runs before the pipeline is consulted; afterwards the pipeline result is
shaped - an `HTTPException` raised by the pipeline is re-raised, any other
escaping exception becomes a generic 500, a `success=false` dictionary
becomes a 500, and a success dictionary is trimmed to the clean
response. -/
def get_inserat (pipeline : String → RunResult) (id : String) : RouterOutcome :=
  if id == "" || pyStrip id == "" then
    .httpError 400 "Invalid listing ID"
  else
    match pipeline id with
    | .raised (.httpException s d) => .httpError s d
    | .raised (.attributeError _) => .httpError 500 "Internal server error"
    | .response r =>
      if r.success then
        .ok { success := r.success
              data := r.data
              performanceSuccessRate := r.performanceMetrics.successRate }
      else
        .httpError 500 "Failed to fetch listing details"

/-! ## Theorems -/

/-- C7: `parse_price` maps the price text `"1.234,56 € VB"` to exactly
amount `"1234.56"`, currency `"€"`, negotiable `true`; and an absent or
empty price text to exactly amount `"0"`, currency `"€"`, negotiable
`false`. -/
theorem c7_parse_price_scenarios :
    parse_price (some "1.234,56 € VB") =
      { amount := "1234.56", currency := "€", negotiable := true } ∧
    parse_price none = { amount := "0", currency := "€", negotiable := false } ∧
    parse_price (some "") = { amount := "0", currency := "€", negotiable := false } := by
  exact ⟨by decide, by decide, by decide⟩

/-- C10: `get_image_sources` inspects only the single `select_one` match
and appends at most one `src` value, so whenever it returns a list that
list has length 0 or 1, whatever the document holds. -/
theorem c10_images_at_most_one (doc : Doc) (selector : String) (l : List String)
    (h : get_image_sources doc selector = .ok l) : l.length ≤ 1 := by
  unfold get_image_sources at h
  split at h
  · cases h
  · simp only [Except.ok.injEq] at h
    subst h
    simp
  · split at h
    · simp only [Except.ok.injEq] at h
      subst h
      simp
    · simp only [Except.ok.injEq] at h
      subst h
      simp

/-- A concrete document whose image element carries a `src` attribute. -/
def imgElement : Element :=
  { text := "", attrs := [("src", "https://img.example/1.jpg")], classText := fun _ => none }

/-- A concrete document for evaluating the image extraction. -/
def imgDoc : Doc :=
  { selectOne := fun _ => .ok (some imgElement), select := fun _ => .ok [] }

/-- Witness for C10 at a concrete document holding an image. -/
theorem c10_witness : (["https://img.example/1.jpg"] : List String).length ≤ 1 :=
  c10_images_at_most_one imgDoc "#viewad-image" ["https://img.example/1.jpg"] rfl

/-- C8: the field-extraction helpers never let an exception out and a
selector that finds nothing yields the default or explicit empty value:
for every document all of whose queries find nothing (or raise, as the
invalid `:has-text` selector always does), `get_seller_details` returns
the default seller record, and `get_details` and `get_features` return
empty collections.  That no exception propagates is embedded in the
return types: the three functions are total and return plain records,
the `try/except` of the source appearing as the `.error` branches. -/
theorem c8_missing_fields_yield_defaults (doc : Doc)
    (h1 : ∀ s, doc.selectOne s = .ok none ∨ ∃ m, doc.selectOne s = .error m)
    (h2 : ∀ s, doc.select s = .ok [] ∨ ∃ m, doc.select s = .error m) :
    get_seller_details doc = { name := none, since := none, type := "private", badges := [] } ∧
    get_details doc = [] ∧
    get_features doc = [] := by
  refine ⟨?_, ?_, ?_⟩
  · unfold get_seller_details
    rcases h1 ".userprofile-vip" with ha | ⟨m1, ha⟩ <;>
    rcases h1 ".userprofile-vip-details-text" with hb | ⟨m2, hb⟩ <;>
    rcases h1 ".userprofile-vip-details-text:has-text(\x27Aktiv seit\x27)" with hc | ⟨m3, hc⟩ <;>
    rcases h2 ".userprofile-vip-badges .userbadge-tag" with hd | ⟨m4, hd⟩ <;>
      simp [get_element_content, get_elements_content, ha, hb, hc, hd]
  · unfold get_details
    rcases h2 "#viewad-details .addetailslist--detail" with hd | ⟨m, hd⟩ <;> simp [hd]
  · unfold get_features
    rcases h2 "#viewad-configuration .checktaglist .checktag" with hd | ⟨m, hd⟩ <;> simp [hd]

/-- A concrete document on which every query finds nothing. -/
def emptyDoc : Doc :=
  { selectOne := fun _ => .ok none, select := fun _ => .ok [] }

/-- Witness for C8 at the concrete empty document. -/
theorem c8_witness :
    get_seller_details emptyDoc = { name := none, since := none, type := "private", badges := [] } ∧
    get_details emptyDoc = [] ∧
    get_features emptyDoc = [] :=
  c8_missing_fields_yield_defaults emptyDoc (fun _ => Or.inl rfl) (fun _ => Or.inl rfl)

/-- C9: the endpoint guard rejects an empty or whitespace-only `id` with
HTTP 400 before the pipeline is consulted; the result is the same for
every pipeline, so the pipeline is never invoked on such an `id`. -/
theorem c9_blank_id_rejected (pipeline : String → RunResult) (id : String)
    (h : id.data.all isPyWhitespace = true) :
    get_inserat pipeline id = .httpError 400 "Invalid listing ID" := by
  have hdropAll : ∀ l : List Char, l.all isPyWhitespace = true →
      l.dropWhile isPyWhitespace = [] := by
    intro l hl
    induction l with
    | nil => rfl
    | cons c cs ih =>
      rw [List.all_cons, Bool.and_eq_true] at hl
      simp [List.dropWhile_cons, hl.1, ih hl.2]
  have hdrop : id.data.dropWhile isPyWhitespace = [] := hdropAll id.data h
  have hstrip : pyStrip id = "" := by
    show (⟨((id.data.dropWhile isPyWhitespace).reverse.dropWhile isPyWhitespace).reverse⟩ : String) = ""
    rw [hdrop]
    rfl
  unfold get_inserat
  rw [hstrip]
  simp

/-- Witness for C9 at a concrete whitespace-only identifier and a concrete
pipeline. -/
theorem c9_witness :
    get_inserat (fun _ => .raised (.httpException 500 "boom")) " \t " =
      .httpError 400 "Invalid listing ID" :=
  c9_blank_id_rejected (fun _ => .raised (.httpException 500 "boom")) " \t " (by decide)

/-- C1: counter-evidence.  With `maxRetries = 2` and a timeout failure -
classified retryable - raised inside the completed attempt 0, the
orchestrator does not turn the failure into a retry or a terminal failure
response: evaluating the backoff expression raises `AttributeError`
(`asyncio` has no attribute `trandom`), and that raw exception escapes
`get_inserate_details_optimized`, so its caller does not receive a
well-formed Response value. -/
theorem c1_retryable_failure_escapes_raw :
    get_inserate_details_optimized (fun _ => .failure .timeoutError) "999" 2 =
      .raised (.attributeError "module asyncio has no attribute trandom") := by
  decide

/-- C2: counter-evidence.  With `maxRetries = 1` and a network failure -
classified retryable - on attempt 0, the attempt loop terminates by
raising `AttributeError` out of the backoff expression instead of
terminating with a response; the attempt-count bounds themselves hold (a
single attempt ran, within the `maxRetries + 1` limit), but no response is
produced. -/
theorem c2_loop_exits_without_response :
    get_inserate_details_optimized (fun _ => .failure .networkError) "12345" 1 =
      .raised (.attributeError "module asyncio has no attribute trandom") := by
  decide

/-- C4: counter-evidence.  On the retry path after a retryable failure
(HTTP 503) at attempt 0 with `maxRetries = 3`, no backoff wait in
`[2^0, 2^0 + 1)` is ever inserted: the expression
`(2**attempt) + asyncio.trandom.uniform(0, 1)` raises `AttributeError`
before any wait value exists, and the run ends with that exception instead
of sleeping and retrying. -/
theorem c4_backoff_never_computed :
    get_inserate_details_optimized (fun _ => .failure (.httpStatusError 503)) "777" 3 =
      .raised (.attributeError "module asyncio has no attribute trandom") := by
  decide

/-- C3: for every `maxRetries` and every first-attempt failure whose
structured error is non-retryable, the orchestrator performs exactly one
attempt (the recorded metrics count one attempt) and returns the failure
response built from that StructuredError. -/
theorem c3_nonretryable_exactly_one_attempt (oracle : Nat → AttemptOutcome)
    (lid : String) (rc : Nat) (e : RawError)
    (h0 : oracle 0 = .failure e)
    (hnr : (classify_error e).shouldRetry rc = false) :
    get_inserate_details_optimized oracle lid rc =
      .response (failureResponse (classify_error e) 0
        [failurePageMetric (listing_url lid) 0 (classify_error e) 0] []) ∧
    (failureResponse (classify_error e) 0
        [failurePageMetric (listing_url lid) 0 (classify_error e) 0]
        []).performanceMetrics.totalAttempts = 1 ∧
    (failureResponse (classify_error e) 0
        [failurePageMetric (listing_url lid) 0 (classify_error e) 0] []).success = false := by
  refine ⟨?_, rfl, rfl⟩
  unfold get_inserate_details_optimized
  simp [retryFrom, h0, hnr]

/-- Witness for C3: a parsing failure on attempt 0 with `maxRetries = 5`
yields the single-attempt failure response. -/
theorem c3_witness :
    get_inserate_details_optimized (fun _ => .failure .parsingError) "w3" 5 =
      .response (failureResponse (classify_error .parsingError) 0
        [failurePageMetric (listing_url "w3") 0 (classify_error .parsingError) 0] []) ∧
    (failureResponse (classify_error .parsingError) 0
        [failurePageMetric (listing_url "w3") 0 (classify_error .parsingError) 0]
        []).performanceMetrics.totalAttempts = 1 ∧
    (failureResponse (classify_error .parsingError) 0
        [failurePageMetric (listing_url "w3") 0 (classify_error .parsingError) 0]
        []).success = false :=
  c3_nonretryable_exactly_one_attempt (fun _ => .failure .parsingError) "w3" 5 .parsingError rfl rfl

/-- C6: for every attempt 0 that completes with an extracted record whose
identifier field is absent, the orchestrator adds the MEDIUM-severity
incomplete-data warning, records the attempt metric as successful, and
returns the success response carrying the record. -/
theorem c6_missing_id_still_success (oracle : Nat → AttemptOutcome)
    (lid : String) (rc : Nat) (d : Details)
    (h0 : oracle 0 = .success d) (hid : d.id = none) :
    get_inserate_details_optimized oracle lid rc =
      .response (successResponse d [successPageMetric (listing_url lid) 0 1]
        [incompleteDataWarning lid]) ∧
    (successResponse d [successPageMetric (listing_url lid) 0 1]
        [incompleteDataWarning lid]).success = true ∧
    (successResponse d [successPageMetric (listing_url lid) 0 1]
        [incompleteDataWarning lid]).data = some d ∧
    (successPageMetric (listing_url lid) 0 1).success = true ∧
    (incompleteDataWarning lid).severity = ErrorSeverity.medium := by
  refine ⟨?_, rfl, rfl, rfl, rfl⟩
  unfold get_inserate_details_optimized
  simp [retryFrom, h0, detailsIdFalsy, hid]

/-- Witness for C6: a concrete record without identifier still produces a
success response with the warning attached. -/
theorem c6_witness :
    get_inserate_details_optimized (fun _ => .success ⟨none, [("title", "lamp")]⟩) "w6" 2 =
      .response (successResponse ⟨none, [("title", "lamp")]⟩
        [successPageMetric (listing_url "w6") 0 1] [incompleteDataWarning "w6"]) ∧
    (successResponse ⟨none, [("title", "lamp")]⟩
        [successPageMetric (listing_url "w6") 0 1] [incompleteDataWarning "w6"]).success = true ∧
    (successResponse ⟨none, [("title", "lamp")]⟩
        [successPageMetric (listing_url "w6") 0 1] [incompleteDataWarning "w6"]).data =
      some ⟨none, [("title", "lamp")]⟩ ∧
    (successPageMetric (listing_url "w6") 0 1).success = true ∧
    (incompleteDataWarning "w6").severity = ErrorSeverity.medium :=
  c6_missing_id_still_success (fun _ => .success ⟨none, [("title", "lamp")]⟩) "w6" 2
    ⟨none, [("title", "lamp")]⟩ rfl rfl

/-- C5: the warning accumulator is append-only across the whole retry
loop: from any loop state, every warning already accumulated reappears, in
order, at the start of the detailed-warnings list of whatever response the
loop finally returns, and the accumulated count never shrinks; in
particular a warning raised during an earlier attempt is still present in
the final response, and per-attempt warning counts are monotone. -/
theorem c5_warnings_append_only (lid url : String) (oracle : Nat → AttemptOutcome)
    (rc remaining attempt : Nat) (wm : List Warning) (tracker : List PageMetrics)
    (lastErr : Option StructuredError) (r : Response)
    (h : retryFrom lid url oracle rc attempt remaining wm tracker lastErr = .response r) :
    (∃ tail, wm ++ tail = r.detailedWarnings.getD []) ∧
    wm.length ≤ (r.detailedWarnings.getD []).length := by
  cases remaining with
  | zero =>
    cases lastErr <;> simp [retryFrom] at h
  | succ n =>
    rw [retryFrom] at h
    cases ho : oracle attempt with
    | success d =>
      rw [ho] at h
      by_cases hcond : (detailsFalsy d || detailsIdFalsy d) = true
      · simp only [hcond, if_true] at h
        simp only [RunResult.response.injEq] at h
        subst h
        constructor
        · refine ⟨[incompleteDataWarning lid], ?_⟩
          simp [successResponse]
        · simp [successResponse]
      · simp only [hcond, if_false] at h
        simp only [RunResult.response.injEq] at h
        subst h
        by_cases hempty : wm = []
        · subst hempty
          exact ⟨⟨[], rfl⟩, by simp⟩
        · refine ⟨⟨[], ?_⟩, ?_⟩
          · simp [successResponse, hempty]
          · simp [successResponse, hempty]
    | failure e =>
      rw [ho] at h
      dsimp only at h
      split at h
      · simp [backoffWaitTime] at h
      · simp only [RunResult.response.injEq] at h
        subst h
        by_cases hempty : wm = []
        · subst hempty
          exact ⟨⟨[], rfl⟩, by simp⟩
        · refine ⟨⟨[], ?_⟩, ?_⟩
          · simp [failureResponse, hempty]
          · simp [failureResponse, hempty]

/-- Witness for C5: a warning already accumulated before a successful
attempt reappears at the front of the final detailed-warnings list. -/
theorem c5_witness :
    (∃ tail, [incompleteDataWarning "w5"] ++ tail =
      ((successResponse ⟨none, []⟩ [successPageMetric (listing_url "x5") 0 2]
        [incompleteDataWarning "w5", incompleteDataWarning "x5"]).detailedWarnings.getD [])) ∧
    ([incompleteDataWarning "w5"] : List Warning).length ≤
      ((successResponse ⟨none, []⟩ [successPageMetric (listing_url "x5") 0 2]
        [incompleteDataWarning "w5", incompleteDataWarning "x5"]).detailedWarnings.getD []).length :=
  c5_warnings_append_only "x5" (listing_url "x5") (fun _ => .success ⟨none, []⟩) 0 1 0
    [incompleteDataWarning "w5"] [] none _ rfl
